import Mathlib

/-!
Verification of the SCPI client core of the msox3000 repository
(`msox3000/SCPI.py` and `msox3000/MSOX3000.py`), as a shallow embedding.

Python values that can flow through the channel-selection machinery are
modelled by `PyVal` (ints, strings, lists); Python `==` which never
identifies an int with a string is `pyEq`.  Each channel-accepting
operation is translated into a pure function from the current channel
state, the optional channel argument and an abstract instrument to a
record holding the new channel state, the trace of transport actions
issued, and the outcome (normal return, raised exception, process exit,
or still-looping).
-/

set_option maxRecDepth 4096

namespace Msox3000

/-- Python values that appear as channel designators in the source:
integers, strings and lists of values. -/
inductive PyVal where
  | int (n : Int)
  | str (s : String)
  | list (xs : List PyVal)

/-- Python `==` on `PyVal`: an int never equals a string, lists compare
elementwise.  This is the equality used by Python's `in` operator and by
guards such as `self._chanNumber(src) != self.channel`. -/
def pyEq : PyVal → PyVal → Bool
  | .int n, .int m => n == m
  | .str s, .str t => s == t
  | .list [], .list [] => true
  | .list (x :: xs), .list (y :: ys) => pyEq x y && pyEq (.list xs) (.list ys)
  | _, _ => false

/-- Python `x in l` membership test, which uses `==` on the elements. -/
def pyMem (v : PyVal) (l : List PyVal) : Bool :=
  l.any (fun e => pyEq v e)

/-- `type(v) is list` check from the source. -/
def PyVal.isList : PyVal → Bool
  | .list _ => true
  | _ => false

mutual

/-- Python `repr` for the modelled values (used by `str()` on lists). -/
def pyRepr : PyVal → String
  | .int n => toString n
  | .str s => "\x27" ++ s ++ "\x27"
  | .list xs => "[" ++ pyReprItems xs ++ "]"

/-- Comma-separated reprs of list items, as Python prints a list. -/
def pyReprItems : List PyVal → String
  | [] => ""
  | [x] => pyRepr x
  | x :: y :: xs => pyRepr x ++ ", " ++ pyReprItems (y :: xs)

end

/-- Python `str()`/`"{0}".format()` of a value: ints and strings print
plainly, lists print their items' reprs in brackets. -/
def pyFormat : PyVal → String
  | .int n => toString n
  | .str s => s
  | .list xs => "[" ++ pyReprItems xs ++ "]"

/-- The whitespace characters stripped by Python `str.strip()`. -/
def pyWhitespace : List Char := [' ', '\t', '\n', '\r', '\x0b', '\x0c']

/-- Drop from the end of the list every character contained in `strip`
(the list-level engine behind Python `str.rstrip(chars)`). -/
def rstripAux (strip : List Char) : List Char → List Char
  | [] => []
  | c :: cs =>
    match rstripAux strip cs with
    | [] => if strip.contains c then [] else [c]
    | r => c :: r

/-- Python `s.rstrip(chars)`: remove the trailing run of characters of
`chars` from `s` (with `chars = ""` nothing is removed, as in Python). -/
def pyRstrip (s : String) (chars : String) : String :=
  ⟨rstripAux chars.data s.data⟩

/-- Python `s.strip()`: remove leading and trailing whitespace. -/
def pyStrip (s : String) : String :=
  ⟨rstripAux pyWhitespace ((s.data).dropWhile (fun c => pyWhitespace.contains c))⟩

/-- Value of a nonempty all-digit character list, else `none`. -/
def digitsToNat? (ds : List Char) : Option Nat :=
  if ds ≠ [] ∧ ds.all (fun c => c.isDigit) then
    some (ds.foldl (fun a c => a * 10 + (c.toNat - 48)) 0)
  else none

/-- Python `int(s)` on the forms appearing in the source: optional
whitespace, optional sign, decimal digits; `none` models `ValueError`. -/
def strToInt? (s : String) : Option Int :=
  match (pyStrip s).data with
  | '+' :: ds => (digitsToNat? ds).map Int.ofNat
  | '-' :: ds => (digitsToNat? ds).map (fun n => -(n : Int))
  | ds => (digitsToNat? ds).map Int.ofNat

/-- Python `s.split(sep)` for a single-character separator, at the
character-list level (empty pieces are preserved, as in Python). -/
def splitOnChar (sep : Char) : List Char → List (List Char)
  | [] => [[]]
  | c :: cs =>
    match splitOnChar sep cs with
    | [] => if c = sep then [[], []] else [[c]]
    | g :: gs => if c = sep then [] :: g :: gs else (c :: g) :: gs

/-- Python `s.split(sep)` returning strings. -/
def pySplit (s : String) (sep : Char) : List String :=
  (splitOnChar sep s.data).map (fun l => ⟨l⟩)

/-- Python `float(s)` restricted to the plain `major.minor` decimal
strings built by `_getVersion` (digits, one dot, digits), as an exact
rational; `none` models `ValueError`. -/
def decToRat? (s : String) : Option ℚ :=
  match splitOnChar '.' s.data with
  | [a, b] =>
    match digitsToNat? a, digitsToNat? b with
    | some x, some y => some ((x : ℚ) + (y : ℚ) / ((10 ^ b.length : Nat) : ℚ))
    | _, _ => none
  | _ => none

/-- `SCPI.OverRange = +9.9E+37`, the over-range sentinel, exactly. -/
def OverRange : ℚ := 99 * (10 : ℚ) ^ 36

/-- `SCPI.ErrorQueue = 30`, the bound on error-queue reads. -/
def ErrorQueue : Nat := 30

/-- `SCPI._getVersion`: split the `*IDN?` response on commas, take the
fourth token, split it on dots, and parse `major.minor` as a number
(`float(ver[0]+'.'+ver[1])`); `none` models the Python exceptions on
malformed responses. -/
def parseVersion (idn : String) : Option ℚ :=
  match (pySplit idn ',').get? 3 with
  | none => none
  | some fw =>
    let ver := pySplit fw '.'
    match ver.get? 0, ver.get? 1 with
    | some a, some b => decToRat? (a ++ "." ++ b)
    | _, _ => none

/-- The dialect selection at the top of `SCPI.checkInstErrors`: for
versions above 3.10 the query is `SYSTem:ERRor? STR` with no-error
marker `0,`, otherwise `SYSTem:ERRor?` with marker `+0,`.  (The source
window arguments `find(noerr, 0, len(noerr))` make the test a
starts-with check.) -/
def errSel (v : ℚ) : String × String :=
  if 31 / 10 < v then ("SYSTem:ERRor? STR", "0,")
  else ("SYSTem:ERRor?", "+0,")

/-- Whether a (raw) error-queue response stops the draining loop: after
`strip()` it is empty, or it starts with the no-error marker. -/
def stopResp (marker : String) (s : String) : Bool :=
  pyStrip s = "" || marker.data.isPrefixOf (pyStrip s).data

/-- The `for reads in range(0, self.ErrorQueue)` loop body of
`checkInstErrors`.  `resps k` is the instrument's response to the
`k`-th error query; the result is the `errors` flag together with the
number of error queries issued from this point on. -/
def drainLoop (marker : String) (resps : Nat → String) :
    Nat → Nat → Bool → Bool × Nat
  | 0, _, errs => (errs, 0)
  | fuel + 1, k, errs =>
    let e := pyStrip (resps k)
    if e = "" then (true, 1)
    else if marker.data.isPrefixOf e.data then (errs, 1)
    else
      let r := drainLoop marker resps fuel (k + 1) true
      (r.1, r.2 + 1)

/-- Result of `SCPI.checkInstErrors`: the error-query command selected
for the stored version, the returned `errors` boolean, and the number
of error queries issued. -/
structure ChkRes where
  cmd : String
  errors : Bool
  queries : Nat

/-- `SCPI.checkInstErrors` for a stored version `v`, with the
instrument's successive error-queue responses given by `resps`. -/
def checkInstErrors (v : ℚ) (resps : Nat → String) : ChkRes :=
  let sel := errSel v
  let r := drainLoop sel.2 resps ErrorQueue 0 false
  ⟨sel.1, r.1, r.2⟩

/-- `SCPI._chanNumber`: decode a response as a channel number; `0` if
the first four characters are not `CHAN`, otherwise `int` of the fifth
character (`.error` models the `IndexError`/`ValueError` Python would
raise on malformed responses). -/
inductive PyErr where
  | valueError (msg : String)
  | indexError

/-- See `PyErr`; the decoder itself. -/
def chanNumber (s : String) : Except PyErr Int :=
  if s.data.take 4 = ['C', 'H', 'A', 'N'] then
    match s.data.get? 4 with
    | none => .error .indexError
    | some c =>
      if c.isDigit then .ok ((c.toNat : Int) - 48)
      else .error (.valueError ("invalid literal for int() with base 10: " ++
        String.singleton c))
  else .ok 0

/-- `SCPI._channelStr`: `CHANnelx` when `int(channel)` succeeds, else
the plain `str()` form (`_chanStr`).  (On a list Python would raise an
uncaught `TypeError`; no modelled operation reaches that case.) -/
def channelStr : PyVal → String
  | .int n => "CHANnel" ++ toString n
  | .str s =>
    match strToInt? s with
    | some n => "CHANnel" ++ toString n
    | none => s
  | .list xs => "[" ++ pyReprItems xs ++ "]"

/-- `SCPI._1OR0`: true when the first character of the response is `1`. -/
def py1or0 (s : String) : Bool := s.data.take 1 = ['1']

/-- Outcome of a Python call: normal return, raised exception, process
exit (`sys.exit`), or still inside an unbounded loop. -/
inductive PyOut (α : Type) where
  | ok (a : α)
  | exc (e : PyErr)
  | exited (code : Nat)
  | nonterm

/-- One transport-level action: a raw send over VISA (`write`/`query`),
or an error-queue drain (`checkInstErrors`) triggered with the given
diagnostic command.  (The drain itself issues further sends; it is
modelled separately by `checkInstErrors`.) -/
inductive Act where
  | send (s : String)
  | chk (s : String)
deriving DecidableEq, Repr

/-- A transport response: a returned string, or a `VisaIOError`. -/
inductive TResp where
  | ok (s : String)
  | ioErr

/-- The VISA transport seen by `_instQuery`/`_instWrite`: the response
(or I/O failure) for each sent string. -/
structure Transport where
  resp : String → TResp

/-- The string actually sent for command `q`: the command prefix is
prepended unless the first character is `*` (`if (queryStr[0] != '*')`). -/
def sentStr (pfx q : String) : String :=
  if q.data.head? = some '*' then q else pfx ++ q

/-- `SCPI._instQuery`: prefix, send, and on success strip
`read_strip` from the trailing edge and (optionally) drain the error
queue; on `VisaIOError` drain the error queue and `exit(1)`.  An empty
command models Python's `IndexError` on `queryStr[0]`. -/
def instQuery (pfx strip : String) (t : Transport) (q : String)
    (chkErrs : Bool) : PyOut String × List Act :=
  if q = "" then (.exc .indexError, [])
  else
    let sent := sentStr pfx q
    match t.resp sent with
    | .ioErr => (.exited 1, [.send sent, .chk sent])
    | .ok raw =>
      (.ok (pyRstrip raw strip),
        .send sent :: (if chkErrs then [.chk sent] else []))

/-- `SCPI._instWrite`: prefix, send, and (optionally) drain the error
queue; on `VisaIOError` drain the error queue and `exit(1)`. -/
def instWrite (pfx : String) (t : Transport) (w : String)
    (chkErrs : Bool) : PyOut Unit × List Act :=
  if w = "" then (.exc .indexError, [])
  else
    let sent := sentStr pfx w
    match t.resp sent with
    | .ioErr => (.exited 1, [.send sent, .chk sent])
    | .ok _ =>
      (.ok (), .send sent :: (if chkErrs then [.chk sent] else []))

/-- `MSOX3000.maxChannel = 4`. -/
def maxChannel : Nat := 4

/-- `MSOX3000.chanAnaValidList = [str(x) for x in range(1,maxChannel+1)]`. -/
def chanAnaValidList : List PyVal :=
  (List.range' 1 maxChannel).map (fun n => .str (toString n))

/-- `MSOX3000.chanAllValidList`: the analog channel strings followed by
the digital pod names `POD1`, `POD2`. -/
def chanAllValidList : List PyVal :=
  chanAnaValidList ++ [.str "POD1", .str "POD2"]

/-- Result of one channel-accepting operation: the `_curr_chan` state
after the call, the transport actions issued, and the outcome. -/
structure OpRes (α : Type) where
  chan : PyVal
  trace : List Act
  out : PyOut α

/-- The abstract instrument behind the MSOX3000 operations: string
responses keyed by the sent string, numeric responses (the
`float()`-parsed result of `_instQueryNumber`), IEEE-block responses as
byte lists, the stream of successive `DVM:CURRent?` readings, and the
wall-clock seconds elapsed at the `k`-th DVM loop iteration. -/
structure Instr where
  resp : String → String
  numResp : String → ℚ
  blockResp : String → List Nat
  dvmVals : Nat → ℚ
  elapsed : Nat → ℚ

/-- `if channel is not None and type(channel) is not list:
self.channel = channel` — the guarded assignment shared by `_measure`,
`_readDVM`, `channelLabel` and `waveform`. -/
def setChanScalar (st : PyVal) (chArg : Option PyVal) : PyVal :=
  match chArg with
  | some c => if c.isList then st else c
  | none => st

/-- Whether the optional channel argument is a list. -/
def argIsList : Option PyVal → Bool
  | some c => c.isList
  | none => false

/-- The transport actions of one `_instWrite`/`_instQuery` with the
MSOX3000 command prefix `:` and default error checking: the send
followed by the error-queue drain. -/
def cmdActs (cmd : String) : List Act :=
  [.send (":" ++ cmd), .chk (":" ++ cmd)]

/-- `SCPI.isOutputOn`: set the channel if given (no validation), then
query `STATus?` for it and decode with `_1OR0`. -/
def isOutputOn (st : PyVal) (chArg : Option PyVal) (instr : Instr) :
    OpRes Bool :=
  let st' := chArg.getD st
  ⟨st', cmdActs ("STATus? " ++ channelStr st'),
    .ok (py1or0 (pyRstrip (instr.resp (":STATus? " ++ channelStr st')) "\n"))⟩

/-- `SCPI.outputOn`: set the channel if given (no validation), then
write `VIEW` for it. -/
def outputOn (st : PyVal) (chArg : Option PyVal) : OpRes Unit :=
  let st' := chArg.getD st
  ⟨st', cmdActs ("VIEW " ++ channelStr st'), .ok ()⟩

/-- `SCPI.outputOff`: set the channel if given (no validation), then
write `BLANK` for it. -/
def outputOff (st : PyVal) (chArg : Option PyVal) : OpRes Unit :=
  let st' := chArg.getD st
  ⟨st', cmdActs ("BLANK " ++ channelStr st'), .ok ()⟩

/-- `MSOX3000._measure`: guarded channel assignment, list check, valid
analog channel check, then query the measurement source, switch it if
`_chanNumber(src) != self.channel`, optionally install the measurement,
and query the value. -/
def measureOp (st : PyVal) (mode : String) (para : Option String)
    (chArg : Option PyVal) (install : Bool) (instr : Instr) : OpRes ℚ :=
  let st' := setChanScalar st chArg
  if st'.isList || argIsList chArg then
    ⟨st', [], .exc (.valueError "Channel cannot be a list for MEASURE!")⟩
  else if !pyMem st' chanAnaValidList then
    ⟨st', [], .exc (.valueError ("INVALID Channel Value for MEASURE: " ++
      pyFormat st' ++ "  SKIPPING!"))⟩
  else
    let src := pyRstrip (instr.resp ":MEASure:SOURce?") "\n"
    match chanNumber src with
    | .error e => ⟨st', cmdActs "MEASure:SOURce?", .exc e⟩
    | .ok n =>
      let tSrc := cmdActs "MEASure:SOURce?" ++
        (if pyEq (.int n) st' then []
         else cmdActs ("MEASure:SOURce " ++ channelStr st'))
      let strWr := match para with
        | some p => "MEASure:" ++ mode ++ " " ++ p
        | none => "MEASure:" ++ mode
      let strQu := match para with
        | some p => "MEASure:" ++ mode ++ "? " ++ p
        | none => "MEASure:" ++ mode ++ "?"
      let tIns := if install then
          cmdActs "MEASure:STATistics:DISPlay ON" ++ cmdActs strWr
        else []
      ⟨st', tSrc ++ tIns ++ cmdActs strQu,
        .ok (instr.numResp (":" ++ strQu))⟩

/-- The `while (val >= SCPI.OverRange)` polling loop of
`MSOX3000._readDVM`, fuel-indexed.  `elap k` is the elapsed wall-clock
seconds at the `k`-th iteration check, `poll k` the `k`-th
`DVM:CURRent?` reading; the result is the final value together with the
number of polls issued, or `none` when the fuel runs out with the loop
still running. -/
def dvmLoop (timeout : Option ℚ) (elap poll : Nat → ℚ) :
    Nat → Nat → ℚ → Option (ℚ × Nat)
  | 0, _, _ => none
  | fuel + 1, k, val =>
    if val < OverRange then some (val, k)
    else
      match timeout with
      | some tmo =>
        if tmo ≤ elap k then some (val, k)
        else dvmLoop timeout elap poll fuel (k + 1) (poll k)
      | none => dvmLoop timeout elap poll fuel (k + 1) (poll k)

/-- `MSOX3000._readDVM`: guarded channel assignment, list and valid
analog channel checks, DVM enable, source switch when
`_chanNumber(src) != self.channel`, mode selection, the polling loop,
and for mode `FREQ` a final `DVM:FREQ?` read that replaces the value. -/
def readDVM (st : PyVal) (mode : String) (chArg : Option PyVal)
    (timeout : Option ℚ) (instr : Instr) (fuel : Nat) : OpRes ℚ :=
  let st' := setChanScalar st chArg
  if st'.isList || argIsList chArg then
    ⟨st', [], .exc (.valueError "Channel cannot be a list for DVM!")⟩
  else if !pyMem st' chanAnaValidList then
    ⟨st', [], .exc (.valueError ("INVALID Channel Value for DVM: " ++
      pyFormat st' ++ "  SKIPPING!"))⟩
  else
    let en := pyRstrip (instr.resp ":DVM:ENABle?") "\n"
    let tEn := cmdActs "DVM:ENABle?" ++
      (if py1or0 en then [] else cmdActs "DVM:ENABLE ON")
    let src := pyRstrip (instr.resp ":DVM:SOURce?") "\n"
    match chanNumber src with
    | .error e => ⟨st', tEn ++ cmdActs "DVM:SOURce?", .exc e⟩
    | .ok n =>
      let tSrc := cmdActs "DVM:SOURce?" ++
        (if pyEq (.int n) st' then []
         else cmdActs ("DVM:SOURce " ++ channelStr st'))
      let tMode := cmdActs ("DVM:MODE " ++ mode)
      match dvmLoop timeout instr.elapsed instr.dvmVals fuel 0 OverRange with
      | none => ⟨st', tEn ++ tSrc ++ tMode, .nonterm⟩
      | some (v, k) =>
        let tPoll := List.flatten (List.replicate k (cmdActs "DVM:CURRent?"))
        if mode = "FREQ" then
          ⟨st', tEn ++ tSrc ++ tMode ++ tPoll ++ cmdActs "DVM:FREQ?",
            .ok (instr.numResp ":DVM:FREQ?")⟩
        else
          ⟨st', tEn ++ tSrc ++ tMode ++ tPoll, .ok v⟩

/-- `MSOX3000.channelLabel`: guarded channel assignment, list and valid
analog channel checks, then the label write and `DISPlay:LABel ON`. -/
def channelLabel (st : PyVal) (label : String) (chArg : Option PyVal) :
    OpRes Unit :=
  let st' := setChanScalar st chArg
  if st'.isList || argIsList chArg then
    ⟨st', [], .exc (.valueError "Channel cannot be a list for CHANNEL LABEL!")⟩
  else if !pyMem st' chanAnaValidList then
    ⟨st', [], .exc (.valueError ("INVALID Channel Value for CHANNEL LABEL: " ++
      pyFormat st' ++ "  SKIPPING!"))⟩
  else
    ⟨st', cmdActs ("CHAN" ++ pyFormat st' ++ ":LABel \"" ++ label ++ "\"") ++
      cmdActs "DISPlay:LABel ON", .ok ()⟩

/-- The analog data rows written by `MSOX3000.waveform`: for
`i in range(0, nLength - 1)` the row
`(x_origin + i*x_increment, (data[i] - y_reference)*y_increment + y_origin)`. -/
def waveformRows (xinc xorg yinc yorg yref : ℚ) (data : List Nat) :
    List (ℚ × ℚ) :=
  (List.range (data.length - 1)).map fun (i : Nat) =>
    (xorg + (i : ℚ) * xinc, ((data.getD i 0 : ℚ) - yref) * yinc + yorg)

/-- The bit columns `(data_bytes[i] >> ch) & 1 for ch in range(8)` of a
digital-pod waveform row. -/
def podBits (b : Nat) : List Nat :=
  (List.range 8).map fun ch => (b >>> ch) % 2

/-- The digital-pod data rows written by `MSOX3000.waveform`. -/
def waveformPodRows (xinc xorg : ℚ) (data : List Nat) :
    List (ℚ × List Nat) :=
  (List.range (data.length - 1)).map fun (i : Nat) =>
    (xorg + (i : ℚ) * xinc, podBits (data.getD i 0))

/-- The CSV data rows produced by `MSOX3000.waveform`: analog
(time, voltage) pairs or pod (time, bits) rows. -/
inductive WfData where
  | analog (rows : List (ℚ × ℚ))
  | pod (rows : List (ℚ × List Nat))

/-- `self.channel.upper().startswith('POD')` and
`pod = int(self.channel[-1])` from `MSOX3000.waveform` (valid pod names
end in a digit; on other strings Python would raise, never reached for
validated channels). -/
def wfPod : PyVal → Option Nat
  | .str s =>
    if ['P', 'O', 'D'].isPrefixOf (s.data.map Char.toUpper) then
      match s.data.getLast? with
      | some c => if c.isDigit then some (c.toNat - 48) else none
      | none => none
    else none
  | _ => none

/-- `MSOX3000.waveform`: guarded channel assignment, list check, valid
channel check against the full channel list, then the waveform setup
writes, the five preamble numeric queries, the IEEE-block data query,
and the CSV rows; returns the rows and `nLength`. -/
def waveformOp (st : PyVal) (chArg : Option PyVal) (points : Option Nat)
    (instr : Instr) : OpRes (WfData × Nat) :=
  let st' := setChanScalar st chArg
  if st'.isList || argIsList chArg then
    ⟨st', [], .exc (.valueError "Channel cannot be a list for WAVEFORM!")⟩
  else if !pyMem st' chanAllValidList then
    ⟨st', [], .exc (.valueError ("INVALID Channel Value for WAVEFORM: " ++
      pyFormat st' ++ "  SKIPPING!"))⟩
  else
    let t1 := cmdActs "WAVeform:POINts:MODE MAX" ++
      (match points with
       | some p => cmdActs ("WAVeform:POINts " ++ toString p)
       | none => []) ++
      cmdActs ("WAVeform:SOURce " ++ channelStr st') ++
      cmdActs "WAVeform:FORMat BYTE" ++
      cmdActs "WAVeform:XINCrement?" ++ cmdActs "WAVeform:XORigin?" ++
      cmdActs "WAVeform:YINCrement?" ++ cmdActs "WAVeform:YORigin?" ++
      cmdActs "WAVeform:YREFerence?" ++ cmdActs "WAVeform:DATA?"
    let xinc := instr.numResp ":WAVeform:XINCrement?"
    let xorg := instr.numResp ":WAVeform:XORigin?"
    let yinc := instr.numResp ":WAVeform:YINCrement?"
    let yorg := instr.numResp ":WAVeform:YORigin?"
    let yref := instr.numResp ":WAVeform:YREFerence?"
    let data := instr.blockResp ":WAVeform:DATA?"
    let rows := match wfPod st' with
      | some _ => WfData.pod (waveformPodRows xinc xorg data)
      | none => WfData.analog (waveformRows xinc xorg yinc yorg yref data)
    ⟨st', t1, .ok (rows, data.length)⟩

/-- The `chanstr` accumulation of `MSOX3000.setupAutoscale`: a leading
comma before every channel string, with the first character dropped
when building the command (`chanstr[1:]`). -/
def commaJoin (l : List String) : String :=
  (String.join (l.map fun s => "," ++ s)).drop 1

/-- The `chanlist` of `MSOX3000.setupAutoscale`: the (assigned) channel
value itself when it is a list, else the singleton list holding it. -/
def autoscaleList (st : PyVal) (chArg : Option PyVal) : List PyVal :=
  match chArg.getD st with
  | .list xs => xs
  | v => [v]

/-- `MSOX3000.setupAutoscale`: unconditional channel assignment (lists
included), wrap a scalar into a singleton list, reject more than five
channels, reject the first channel not in the valid list, else write a
single `AUToscale` command naming every listed channel. -/
def setupAutoscale (st : PyVal) (chArg : Option PyVal) : OpRes Unit :=
  let st' := chArg.getD st
  let chanlist := autoscaleList st chArg
  if 5 < chanlist.length then
    ⟨st', [], .exc (.valueError "Too many channels for AUTOSCALE! Max is 5. Aborting")⟩
  else
    match chanlist.find? (fun c => !pyMem c chanAllValidList) with
    | some bad =>
      ⟨st', [], .exc (.valueError ("INVALID Channel Value for AUTOSCALE: " ++
        pyFormat bad ++ "  SKIPPING!"))⟩
    | none =>
      ⟨st', cmdActs ("AUToscale " ++ commaJoin (chanlist.map channelStr)),
        .ok ()⟩

/-- Whether an outcome is a raised `ValueError` (the validation
errors of the channel-accepting operations). -/
def isValueError {α : Type} : PyOut α → Bool
  | .exc (.valueError _) => true
  | _ => false

/-- A queue of one real error followed by the no-error response, used
to exercise the drain loop on a concrete input. -/
def sampleResps : Nat → String :=
  fun n => if n = 0 then "-113,Undefined header" else "+0,No error"

/-- A transport whose every transaction fails with a `VisaIOError`. -/
def deadTransport : Transport := ⟨fun _ => .ioErr⟩

/-- A transport answering a single measurement query. -/
def okTransport : Transport :=
  ⟨fun s => if s = ":MEASure:VRMS?" then .ok "2.5\n" else .ioErr⟩

/-- An instrument that always reports source `CHAN1`, answers every
numeric query with the over-range sentinel, and whose clock advances
one second per DVM poll. -/
def flatInstr : Instr :=
  ⟨fun _ => "CHAN1", fun _ => OverRange, fun _ => [], fun _ => OverRange,
    fun k => (k : ℚ)⟩

/-- The mock instrument of the waveform-export scenario: preamble
`x_increment=1e-9, x_origin=0, y_increment=0.01, y_origin=0,
y_reference=125` and sample bytes `[125, 135, 115, 125]`. -/
def mockWfInstr : Instr :=
  ⟨fun _ => "CHAN1",
    fun s =>
      if s = ":WAVeform:XINCrement?" then 1 / 1000000000
      else if s = ":WAVeform:YINCrement?" then 1 / 100
      else if s = ":WAVeform:YREFerence?" then 125
      else 0,
    fun _ => [125, 135, 115, 125],
    fun _ => OverRange, fun k => (k : ℚ)⟩

/-- `rstripAux` only removes a suffix, and every removed character is
in the strip set. -/
theorem rstripAux_decomp (strip : List Char) (l : List Char) :
    ∃ d, l = rstripAux strip l ++ d ∧ ∀ c ∈ d, c ∈ strip := by
  induction l with
  | nil => exact ⟨[], rfl, by simp⟩
  | cons c cs ih =>
    obtain ⟨d, hd, hall⟩ := ih
    cases hr : rstripAux strip cs with
    | nil =>
      rw [hr] at hd
      simp only [List.nil_append] at hd
      by_cases hc : c ∈ strip
      · refine ⟨c :: cs, ?_, ?_⟩
        · simp [rstripAux, hr, hc]
        · intro x hx
          rcases List.mem_cons.mp hx with h | h
          · exact h ▸ hc
          · exact hall x (hd ▸ h)
      · refine ⟨cs, ?_, fun x hx => hall x (hd ▸ hx)⟩
        simp [rstripAux, hr, hc]
    | cons r rs =>
      refine ⟨d, ?_, hall⟩
      simp only [rstripAux, hr]
      rw [hr] at hd
      simpa using congrArg (c :: ·) hd

/-- The string left by `rstripAux` does not end in a strip character. -/
theorem rstripAux_last (strip : List Char) (l : List Char) (c : Char)
    (h : (rstripAux strip l).getLast? = some c) :
    c ∉ strip := by
  induction l with
  | nil => simp [rstripAux] at h
  | cons a as ih =>
    cases hr : rstripAux strip as with
    | nil =>
      simp only [rstripAux, hr] at h
      by_cases ha : a ∈ strip
      · simp [ha] at h
      · simp [ha] at h
        exact h ▸ ha
    | cons r rs =>
      simp only [rstripAux, hr] at h
      rw [List.getLast?_cons_cons] at h
      exact ih (hr ▸ h)

/-- C4: for every command, an I/O failure of the transport during a
write or a query first drains the instrument error queue for
diagnostics and then terminates the process with exit code 1 — no
result is returned to the caller and execution never silently
continues. -/
theorem transport_error_is_fatal (pfx strip : String) (t : Transport)
    (q w : String) (chkE : Bool) (hq : q ≠ "") (hw : w ≠ "")
    (hqe : t.resp (sentStr pfx q) = .ioErr)
    (hwe : t.resp (sentStr pfx w) = .ioErr) :
    instQuery pfx strip t q chkE =
      (.exited 1, [.send (sentStr pfx q), .chk (sentStr pfx q)]) ∧
    instWrite pfx t w chkE =
      (.exited 1, [.send (sentStr pfx w), .chk (sentStr pfx w)]) := by
  constructor
  · simp [instQuery, hq, hqe]
  · simp [instWrite, hw, hwe]

/-- Witness for `transport_error_is_fatal` on a concrete command and a
transport that always fails. -/
theorem transport_error_is_fatal_witness :
    instQuery ":" "\n" deadTransport "MEASure:VPP?" true =
      (.exited 1, [.send (sentStr ":" "MEASure:VPP?"),
        .chk (sentStr ":" "MEASure:VPP?")]) ∧
    instWrite ":" deadTransport "AUToscale" true =
      (.exited 1, [.send (sentStr ":" "AUToscale"),
        .chk (sentStr ":" "AUToscale")]) :=
  transport_error_is_fatal ":" "\n" deadTransport "MEASure:VPP?" "AUToscale"
    true (by decide) (by decide) rfl rfl

/-- C7: for every nonempty command string, write and query prepend the
configured command prefix exactly when the command does not start with
`*`; a successful query returns the transport's raw response with the
configured strip characters removed from its trailing edge (the
returned string is a prefix of the raw response, the removed characters
all belong to the strip set, and the returned string no longer ends in
a strip character). -/
theorem write_query_marker_and_strip (pfx strip : String) (t : Transport)
    (q : String) (raw : String) (chkE : Bool) (hq : q ≠ "")
    (hr : t.resp (sentStr pfx q) = .ok raw) :
    instQuery pfx strip t q chkE =
      (.ok (pyRstrip raw strip),
        .send (sentStr pfx q) ::
          (if chkE then [.chk (sentStr pfx q)] else [])) ∧
    instWrite pfx t q chkE =
      (.ok (),
        .send (sentStr pfx q) ::
          (if chkE then [.chk (sentStr pfx q)] else [])) ∧
    sentStr pfx q = (if q.data.head? = some '*' then q else pfx ++ q) ∧
    (∃ d : List Char, raw.data = (pyRstrip raw strip).data ++ d ∧
      (∀ c ∈ d, c ∈ strip.data)) ∧
    (∀ c : Char, (pyRstrip raw strip).data.getLast? = some c →
      c ∉ strip.data) := by
  refine ⟨by simp [instQuery, hq, hr], by simp [instWrite, hq, hr], rfl, ?_, ?_⟩
  · obtain ⟨d, hd, hall⟩ := rstripAux_decomp strip.data raw.data
    exact ⟨d, hd, hall⟩
  · intro c hc
    exact rstripAux_last strip.data raw.data c hc

/-- Witness for `write_query_marker_and_strip`: the query `MEASure:VRMS?` gets
the `:` prefix and the trailing newline of the response `2.5\n` is
stripped. -/
theorem write_query_marker_and_strip_witness :
    (instQuery ":" "\n" okTransport "MEASure:VRMS?" true).1 = .ok "2.5" ∧
    sentStr ":" "MEASure:VRMS?" = ":MEASure:VRMS?" := by
  have h := write_query_marker_and_strip ":" "\n" okTransport "MEASure:VRMS?"
    "2.5\n" true (by decide) rfl
  constructor
  · rw [h.1]
    rfl
  · rfl

/-- An int never compares equal to a string under Python `==`. -/
theorem pyEq_int_str (n : Int) (s : String) :
    pyEq (.int n) (.str s) = false := by
  rw [pyEq.eq_def]

/-- A list never compares equal to a string under Python `==`. -/
theorem pyEq_list_str (xs : List PyVal) (s : String) :
    pyEq (.list xs) (.str s) = false := by
  cases xs <;> rw [pyEq.eq_def]

/-- The analog valid-channel list, spelled out. -/
theorem chanAnaValidList_eq :
    chanAnaValidList = [.str "1", .str "2", .str "3", .str "4"] := rfl

/-- Membership in the analog list implies membership in the full list. -/
theorem pyMem_all_of_ana (ch : PyVal)
    (h : pyMem ch chanAnaValidList = true) :
    pyMem ch chanAllValidList = true := by
  simp only [pyMem, chanAllValidList, List.any_append, Bool.or_eq_true]
  exact Or.inl h

/-- Values outside the full valid-channel list are outside the analog
list as well. -/
theorem pyMem_ana_false (ch : PyVal)
    (h : pyMem ch chanAllValidList = false) :
    pyMem ch chanAnaValidList = false := by
  by_contra hne
  rw [Bool.not_eq_false] at hne
  rw [pyMem_all_of_ana ch hne] at h
  cases h

/-- A member of the analog valid-channel list is one of the four
channel strings. -/
theorem ana_mem_shape (ch : PyVal)
    (h : pyMem ch chanAnaValidList = true) :
    ch = .str "1" ∨ ch = .str "2" ∨ ch = .str "3" ∨ ch = .str "4" := by
  rw [chanAnaValidList_eq] at h
  cases ch with
  | int n => simp [pyMem, pyEq_int_str] at h
  | list xs => simp [pyMem, pyEq_list_str] at h
  | str s =>
    simp [pyMem, pyEq] at h
    rcases h with h | h | h | h <;> simp [h]

/-- No integer channel value is in the full valid-channel list (the
valid channels are strings). -/
theorem pyMem_int_all (n : Int) : pyMem (.int n) chanAllValidList = false := by
  simp [pyMem, chanAllValidList, chanAnaValidList_eq, pyEq_int_str]

/-- C3: version detection splits the identification response on commas,
takes the fourth token and parses its dotted `major.minor` prefix as a
number; error-queue draining uses the old-dialect query
`SYSTem:ERRor?` with no-error prefix `+0,` whenever the stored version
is not greater than 3.10 and the new-dialect `SYSTem:ERRor? STR` with
prefix `0,` whenever it is, so firmware `3.05` selects the old form
and firmware `11.10` the new one. -/
theorem version_dialect_rule :
    (∀ (v : ℚ) (resps : Nat → String),
      (checkInstErrors v resps).cmd =
        (if 31 / 10 < v then "SYSTem:ERRor? STR" else "SYSTem:ERRor?") ∧
      (errSel v).2 = (if 31 / 10 < v then "0," else "+0,")) ∧
    parseVersion "AGILENT TECHNOLOGIES,MSO-X 3034A,MY55123456,3.05" =
      some (61 / 20) ∧
    parseVersion "KEYSIGHT TECHNOLOGIES,MXR058A,MY12345678,11.10.2020" =
      some (111 / 10) ∧
    ¬ (31 / 10 : ℚ) < 61 / 20 ∧
    (checkInstErrors (61 / 20) sampleResps).cmd = "SYSTem:ERRor?" ∧
    (31 / 10 : ℚ) < 111 / 10 ∧
    (checkInstErrors (111 / 10) sampleResps).cmd = "SYSTem:ERRor? STR" := by
  have hsel : ∀ (v : ℚ) (resps : Nat → String),
      (checkInstErrors v resps).cmd =
        (if 31 / 10 < v then "SYSTem:ERRor? STR" else "SYSTem:ERRor?") ∧
      (errSel v).2 = (if 31 / 10 < v then "0," else "+0,") := by
    intro v resps
    by_cases h : (31 / 10 : ℚ) < v <;>
      simp [checkInstErrors, errSel, h]
  have hold : ¬ (31 / 10 : ℚ) < 61 / 20 := by norm_num
  have hnew : (31 / 10 : ℚ) < 111 / 10 := by norm_num
  have hp1 : parseVersion "AGILENT TECHNOLOGIES,MSO-X 3034A,MY55123456,3.05" =
      some (((3 : Nat) : ℚ) + ((5 : Nat) : ℚ) / (((100 : Nat)) : ℚ)) := rfl
  have hp2 : parseVersion "KEYSIGHT TECHNOLOGIES,MXR058A,MY12345678,11.10.2020" =
      some (((11 : Nat) : ℚ) + ((10 : Nat) : ℚ) / (((100 : Nat)) : ℚ)) := rfl
  refine ⟨hsel, ?_, ?_, hold, ?_, hnew, ?_⟩
  · rw [hp1]
    norm_num
  · rw [hp2]
    norm_num
  · rw [(hsel (61 / 20) sampleResps).1, if_neg hold]
  · rw [(hsel (111 / 10) sampleResps).1, if_pos hnew]

/-- C8: `setupAutoscale` raises a validation error and sends nothing
when the channel list has more than five entries or contains a value
outside the valid-channel list; otherwise it sends exactly one
`AUToscale` command naming every listed channel. -/
theorem setupAutoscale_validation (st : PyVal) (chArg : Option PyVal) :
    (5 < (autoscaleList st chArg).length →
      (setupAutoscale st chArg).trace = [] ∧
      isValueError (setupAutoscale st chArg).out = true) ∧
    ((∃ c ∈ autoscaleList st chArg, pyMem c chanAllValidList = false) →
      (setupAutoscale st chArg).trace = [] ∧
      isValueError (setupAutoscale st chArg).out = true) ∧
    ((autoscaleList st chArg).length ≤ 5 →
      (∀ c ∈ autoscaleList st chArg, pyMem c chanAllValidList = true) →
      (setupAutoscale st chArg).trace =
        cmdActs ("AUToscale " ++
          commaJoin ((autoscaleList st chArg).map channelStr)) ∧
      (setupAutoscale st chArg).out = .ok ()) := by
  refine ⟨?_, ?_, ?_⟩
  · intro hlen
    simp [setupAutoscale, hlen, isValueError]
  · intro hex
    by_cases hlen : 5 < (autoscaleList st chArg).length
    · simp [setupAutoscale, hlen, isValueError]
    · have hfind : ((autoscaleList st chArg).find?
          (fun c => !pyMem c chanAllValidList)).isSome := by
        rw [List.find?_isSome]
        obtain ⟨c, hc, hcf⟩ := hex
        exact ⟨c, hc, by simp [hcf]⟩
      obtain ⟨bad, hbad⟩ := Option.isSome_iff_exists.mp hfind
      simp [setupAutoscale, hlen, hbad, isValueError]
  · intro hlen hall
    have hfind : (autoscaleList st chArg).find?
        (fun c => !pyMem c chanAllValidList) = none := by
      rw [List.find?_eq_none]
      intro c hc
      simp [hall c hc]
    simp [setupAutoscale, Nat.not_lt.mpr hlen, hfind]

/-- Witness for `setupAutoscale_validation`: autoscaling channels
`1` and `POD1` sends the single command `:AUToscale CHANnel1,POD1`. -/
theorem setupAutoscale_validation_witness :
    (setupAutoscale (.str "1")
      (some (.list [.str "1", .str "POD1"]))).trace =
      [.send ":AUToscale CHANnel1,POD1", .chk ":AUToscale CHANnel1,POD1"] ∧
    (setupAutoscale (.str "1")
      (some (.list [.str "1", .str "POD1"]))).out = .ok () := by
  have h := (setupAutoscale_validation (.str "1")
      (some (.list [.str "1", .str "POD1"]))).2.2
    (by simp [autoscaleList])
    (by
      intro c hc
      simp only [autoscaleList, Option.getD] at hc
      rcases List.mem_cons.mp hc with h1 | h1
      · subst h1
        simp [pyMem, chanAllValidList, chanAnaValidList_eq, pyEq]
      · rcases List.mem_cons.mp h1 with h2 | h2
        · subst h2
          simp [pyMem, chanAllValidList, chanAnaValidList_eq, pyEq]
        · cases h2)
  refine ⟨h.1.trans ?_, h.2⟩
  rfl

/-- C1 counterexample: channel `7` is outside `[1, 4]` and outside the
valid named-channel set, yet `outputOn` raises no validation error and
issues its transport write (`:VIEW CHANnel7`) — refuting the claim that
every channel-accepting operation validates before writing. -/
theorem outputOn_invalid_channel_no_validation :
    pyMem (.int 7) chanAllValidList = false ∧
    (outputOn (.str "1") (some (.int 7))).trace =
      [.send ":VIEW CHANnel7", .chk ":VIEW CHANnel7"] ∧
    (outputOn (.str "1") (some (.int 7))).trace ≠ [] ∧
    (outputOn (.str "1") (some (.int 7))).out = .ok () ∧
    isValueError (outputOn (.str "1") (some (.int 7))).out = false :=
  ⟨pyMem_int_all 7, rfl, by simp [outputOn, cmdActs], rfl, rfl⟩

/-- C1 (amended): for every scalar channel value outside the valid
channel set, the validating operations (`_measure`, `_readDVM`,
`channelLabel`, `waveform`, `setupAutoscale`) raise a `ValueError` and
issue zero transport writes, while `outputOn`, `outputOff` and
`isOutputOn` perform no validation and issue their channel-addressed
command regardless. -/
theorem channel_validation_amended
    (st ch : PyVal) (label mode : String) (para : Option String)
    (install : Bool) (instr : Instr) (tmo : Option ℚ) (fuel : Nat)
    (points : Option Nat)
    (hs : ch.isList = false)
    (hinv : pyMem ch chanAllValidList = false) :
    ((measureOp st mode para (some ch) install instr).trace = [] ∧
      isValueError (measureOp st mode para (some ch) install instr).out
        = true) ∧
    ((readDVM st mode (some ch) tmo instr fuel).trace = [] ∧
      isValueError (readDVM st mode (some ch) tmo instr fuel).out = true) ∧
    ((channelLabel st label (some ch)).trace = [] ∧
      isValueError (channelLabel st label (some ch)).out = true) ∧
    ((waveformOp st (some ch) points instr).trace = [] ∧
      isValueError (waveformOp st (some ch) points instr).out = true) ∧
    ((setupAutoscale st (some ch)).trace = [] ∧
      isValueError (setupAutoscale st (some ch)).out = true) ∧
    ((outputOn st (some ch)).trace = cmdActs ("VIEW " ++ channelStr ch) ∧
      (outputOn st (some ch)).out = .ok ()) ∧
    ((outputOff st (some ch)).trace = cmdActs ("BLANK " ++ channelStr ch) ∧
      (outputOff st (some ch)).out = .ok ()) ∧
    (isOutputOn st (some ch) instr).trace =
      cmdActs ("STATus? " ++ channelStr ch) := by
  have hana := pyMem_ana_false ch hinv
  cases ch with
  | list xs => simp [PyVal.isList] at hs
  | int n =>
    refine ⟨⟨?_, ?_⟩, ⟨?_, ?_⟩, ⟨?_, ?_⟩, ⟨?_, ?_⟩, ⟨?_, ?_⟩,
      ⟨?_, ?_⟩, ⟨?_, ?_⟩, ?_⟩ <;>
      simp [measureOp, readDVM, channelLabel, waveformOp, setupAutoscale,
        autoscaleList, outputOn, outputOff, isOutputOn, setChanScalar,
        argIsList, PyVal.isList, hana, hinv, isValueError]
  | str t =>
    refine ⟨⟨?_, ?_⟩, ⟨?_, ?_⟩, ⟨?_, ?_⟩, ⟨?_, ?_⟩, ⟨?_, ?_⟩,
      ⟨?_, ?_⟩, ⟨?_, ?_⟩, ?_⟩ <;>
      simp [measureOp, readDVM, channelLabel, waveformOp, setupAutoscale,
        autoscaleList, outputOn, outputOff, isOutputOn, setChanScalar,
        argIsList, PyVal.isList, hana, hinv, isValueError]

/-- Witness for `channel_validation_amended` at the invalid channel
`7` (an int, outside the valid string set). -/
theorem channel_validation_amended_witness :
    ((measureOp (.str "1") "DC" none (some (.int 7)) false
        flatInstr).trace = [] ∧
      isValueError (measureOp (.str "1") "DC" none (some (.int 7)) false
        flatInstr).out = true) ∧
    ((readDVM (.str "1") "DC" (some (.int 7)) none flatInstr 3).trace = [] ∧
      isValueError (readDVM (.str "1") "DC" (some (.int 7)) none
        flatInstr 3).out = true) ∧
    ((channelLabel (.str "1") "sig" (some (.int 7))).trace = [] ∧
      isValueError (channelLabel (.str "1") "sig" (some (.int 7))).out
        = true) ∧
    ((waveformOp (.str "1") (some (.int 7)) none flatInstr).trace = [] ∧
      isValueError (waveformOp (.str "1") (some (.int 7)) none
        flatInstr).out = true) ∧
    ((setupAutoscale (.str "1") (some (.int 7))).trace = [] ∧
      isValueError (setupAutoscale (.str "1") (some (.int 7))).out
        = true) ∧
    ((outputOn (.str "1") (some (.int 7))).trace =
        cmdActs ("VIEW " ++ channelStr (.int 7)) ∧
      (outputOn (.str "1") (some (.int 7))).out = .ok ()) ∧
    ((outputOff (.str "1") (some (.int 7))).trace =
        cmdActs ("BLANK " ++ channelStr (.int 7)) ∧
      (outputOff (.str "1") (some (.int 7))).out = .ok ()) ∧
    (isOutputOn (.str "1") (some (.int 7)) flatInstr).trace =
      cmdActs ("STATus? " ++ channelStr (.int 7)) :=
  channel_validation_amended (.str "1") (.int 7) "sig" "DC"
    none false flatInstr none 3 none rfl (pyMem_int_all 7)

/-- C9: the current-channel field is assigned before validation, so
when `_measure`, `_readDVM`, `channelLabel` or `waveform` raises the
invalid-channel `ValueError`, the stored channel has already been
changed to the invalid value, and a subsequent call without a channel
argument inherits it and fails the same way. -/
theorem invalid_channel_state_mutation
    (st ch : PyVal) (label mode : String) (para : Option String)
    (install : Bool) (instr : Instr) (tmo : Option ℚ) (fuel : Nat)
    (points : Option Nat)
    (hs : ch.isList = false)
    (hinv : pyMem ch chanAllValidList = false) :
    ((measureOp st mode para (some ch) install instr).chan = ch ∧
      isValueError (measureOp st mode para (some ch) install instr).out
        = true) ∧
    ((readDVM st mode (some ch) tmo instr fuel).chan = ch ∧
      isValueError (readDVM st mode (some ch) tmo instr fuel).out = true) ∧
    ((channelLabel st label (some ch)).chan = ch ∧
      isValueError (channelLabel st label (some ch)).out = true) ∧
    ((waveformOp st (some ch) points instr).chan = ch ∧
      isValueError (waveformOp st (some ch) points instr).out = true) ∧
    isValueError (measureOp
      (measureOp st mode para (some ch) install instr).chan
      mode para none install instr).out = true := by
  have hana := pyMem_ana_false ch hinv
  cases ch with
  | list xs => simp [PyVal.isList] at hs
  | int n =>
    refine ⟨⟨?_, ?_⟩, ⟨?_, ?_⟩, ⟨?_, ?_⟩, ⟨?_, ?_⟩, ?_⟩ <;>
      simp [measureOp, readDVM, channelLabel, waveformOp, setChanScalar,
        argIsList, PyVal.isList, hana, hinv, isValueError]
  | str t =>
    refine ⟨⟨?_, ?_⟩, ⟨?_, ?_⟩, ⟨?_, ?_⟩, ⟨?_, ?_⟩, ?_⟩ <;>
      simp [measureOp, readDVM, channelLabel, waveformOp, setChanScalar,
        argIsList, PyVal.isList, hana, hinv, isValueError]

/-- Witness for `invalid_channel_state_mutation` at the invalid
channel `7`: the state ends up holding `7` while the call fails. -/
theorem invalid_channel_state_mutation_witness :
    ((measureOp (.str "1") "VPP" none (some (.int 7)) false
        flatInstr).chan = .int 7 ∧
      isValueError (measureOp (.str "1") "VPP" none (some (.int 7)) false
        flatInstr).out = true) ∧
    ((readDVM (.str "1") "VPP" (some (.int 7)) none flatInstr 3).chan
        = .int 7 ∧
      isValueError (readDVM (.str "1") "VPP" (some (.int 7)) none
        flatInstr 3).out = true) ∧
    ((channelLabel (.str "1") "sig" (some (.int 7))).chan = .int 7 ∧
      isValueError (channelLabel (.str "1") "sig" (some (.int 7))).out
        = true) ∧
    ((waveformOp (.str "1") (some (.int 7)) none flatInstr).chan
        = .int 7 ∧
      isValueError (waveformOp (.str "1") (some (.int 7)) none
        flatInstr).out = true) ∧
    isValueError (measureOp
      (measureOp (.str "1") "VPP" none (some (.int 7)) false
        flatInstr).chan
      "VPP" none none false flatInstr).out = true :=
  invalid_channel_state_mutation (.str "1") (.int 7) "sig" "VPP"
    none false flatInstr none 3 none rfl (pyMem_int_all 7)

/-- C10: because valid analog channels are strings while `_chanNumber`
returns an integer, the guard `_chanNumber(src) != self.channel` never
evaluates equal, so both `_measure` and `_readDVM` issue the
source-selection write on every invocation, whatever source the
instrument reports. -/
theorem source_select_always_written
    (st ch : PyVal) (mode : String) (para : Option String)
    (install : Bool) (instr : Instr) (tmo : Option ℚ) (fuel : Nat)
    (nm nd : Int)
    (hch : pyMem ch chanAnaValidList = true)
    (hm : chanNumber (pyRstrip (instr.resp ":MEASure:SOURce?") "\n")
      = .ok nm)
    (hd : chanNumber (pyRstrip (instr.resp ":DVM:SOURce?") "\n")
      = .ok nd) :
    pyEq (.int nm) ch = false ∧
    pyEq (.int nd) ch = false ∧
    Act.send (":" ++ ("MEASure:SOURce " ++ channelStr ch)) ∈
      (measureOp st mode para (some ch) install instr).trace ∧
    Act.send (":" ++ ("DVM:SOURce " ++ channelStr ch)) ∈
      (readDVM st mode (some ch) tmo instr fuel).trace := by
  have hshape := ana_mem_shape ch hch
  have hlist : ch.isList = false := by
    rcases hshape with h | h | h | h <;> subst h <;> rfl
  have hne_m : pyEq (.int nm) ch = false := by
    rcases hshape with h | h | h | h <;> subst h <;> exact pyEq_int_str _ _
  have hne_d : pyEq (.int nd) ch = false := by
    rcases hshape with h | h | h | h <;> subst h <;> exact pyEq_int_str _ _
  refine ⟨hne_m, hne_d, ?_, ?_⟩
  · simp [measureOp, setChanScalar, argIsList, hlist, hch, hm, hne_m, cmdActs]
  · cases hdl : dvmLoop tmo instr.elapsed instr.dvmVals fuel 0 OverRange with
    | none =>
      simp [readDVM, setChanScalar, argIsList, hlist, hch, hd, hne_d, hdl,
        cmdActs]
    | some vk =>
      obtain ⟨v, k⟩ := vk
      by_cases hfreq : mode = "FREQ" <;>
        simp [readDVM, setChanScalar, argIsList, hlist, hch, hd, hne_d, hdl,
          hfreq, cmdActs]

/-- Witness for `source_select_always_written`: the instrument already
reports source `CHAN1` and the requested channel is `1`, yet the
source-selection writes are still issued. -/
theorem source_select_always_written_witness :
    pyEq (.int 1) (.str "1") = false ∧
    pyEq (.int 1) (.str "1") = false ∧
    Act.send (":" ++ ("MEASure:SOURce " ++ channelStr (.str "1"))) ∈
      (measureOp (.str "1") "VPP" none (some (.str "1")) false
        flatInstr).trace ∧
    Act.send (":" ++ ("DVM:SOURce " ++ channelStr (.str "1"))) ∈
      (readDVM (.str "1") "VPP" (some (.str "1")) none flatInstr 3).trace :=
  source_select_always_written (.str "1") (.str "1") "VPP" none false
    flatInstr none 3 1 1
    (by simp [pyMem, chanAnaValidList_eq, pyEq])
    rfl rfl

/-- C5: an analog-channel waveform export with `n` raw sample bytes
writes exactly `n - 1` data rows; row `i` is
`(x_origin + i*x_increment, (data[i] - y_reference)*y_increment +
y_origin)` (exactly, hence within floating-point tolerance); the op
returns these rows for every valid analog channel; and on the mock
preamble `x_increment=1e-9, y_increment=0.01, y_reference=125` with
data `[125, 135, 115, 125]` the rows are `(0, 0.0), (1e-9, 0.1),
(2e-9, -0.1)` — the last sample is dropped. -/
theorem waveform_rows_spec
    (xinc xorg yinc yorg yref : ℚ) (data : List Nat) :
    (waveformRows xinc xorg yinc yorg yref data).length = data.length - 1 ∧
    (∀ i, i < data.length - 1 →
      (waveformRows xinc xorg yinc yorg yref data).getD i (0, 0) =
        (xorg + (i : ℚ) * xinc,
          ((data.getD i 0 : ℚ) - yref) * yinc + yorg)) ∧
    (∀ (st ch : PyVal) (points : Option Nat) (instr : Instr),
      pyMem ch chanAnaValidList = true →
      (waveformOp st (some ch) points instr).out =
        .ok (.analog (waveformRows
            (instr.numResp ":WAVeform:XINCrement?")
            (instr.numResp ":WAVeform:XORigin?")
            (instr.numResp ":WAVeform:YINCrement?")
            (instr.numResp ":WAVeform:YORigin?")
            (instr.numResp ":WAVeform:YREFerence?")
            (instr.blockResp ":WAVeform:DATA?")),
          (instr.blockResp ":WAVeform:DATA?").length)) ∧
    waveformRows (1 / 1000000000) 0 (1 / 100) 0 125 [125, 135, 115, 125] =
      [(0, 0), (1 / 1000000000, 1 / 10), (2 / 1000000000, -(1 / 10))] := by
  refine ⟨by simp [waveformRows], ?_, ?_, ?_⟩
  · intro i hi
    simp [waveformRows, List.getD_eq_getElem?_getD, List.getElem?_map,
      List.getElem?_range, hi]
  · intro st ch points instr hch
    have hall := pyMem_all_of_ana ch hch
    have hshape := ana_mem_shape ch hch
    rcases hshape with h | h | h | h <;> subst h <;>
      cases points <;>
        simp [waveformOp, setChanScalar, argIsList, PyVal.isList, hall,
          show ∀ t, wfPod (.str t) =
            (if ['P', 'O', 'D'].isPrefixOf (t.data.map Char.toUpper) then
              (match t.data.getLast? with
                | some c => if c.isDigit then some (c.toNat - 48) else none
                | none => none)
            else none) from fun t => rfl]
  · norm_num [waveformRows, List.range_succ]

/-- Witness for `waveform_rows_spec`: the mock-instrument export on
channel `1` produces the three expected rows. -/
theorem waveform_rows_spec_witness :
    (waveformOp (.str "1") (some (.str "1")) none mockWfInstr).out =
      .ok (.analog [(0, 0), (1 / 1000000000, 1 / 10),
        (2 / 1000000000, -(1 / 10))], 4) := by
  have h := waveform_rows_spec (1 / 1000000000) 0 (1 / 100) 0 125
    [125, 135, 115, 125]
  have hop := h.2.2.1 (.str "1") (.str "1") none mockWfInstr
    (by simp [pyMem, chanAnaValidList_eq, pyEq])
  rw [hop]
  have hx : mockWfInstr.numResp ":WAVeform:XINCrement?" = 1 / 1000000000 := by
    simp [mockWfInstr]
  have hxo : mockWfInstr.numResp ":WAVeform:XORigin?" = 0 := by
    simp [mockWfInstr]
  have hy : mockWfInstr.numResp ":WAVeform:YINCrement?" = 1 / 100 := by
    simp [mockWfInstr]
  have hyo : mockWfInstr.numResp ":WAVeform:YORigin?" = 0 := by
    simp [mockWfInstr]
  have hyr : mockWfInstr.numResp ":WAVeform:YREFerence?" = 125 := by
    simp [mockWfInstr]
  have hb : mockWfInstr.blockResp ":WAVeform:DATA?" = [125, 135, 115, 125] :=
    rfl
  rw [hx, hxo, hy, hyo, hyr, hb, h.2.2.2]
  rfl

/-- More fuel does not change a DVM polling loop that already
finished. -/
theorem dvmLoop_mono (tmo? : Option ℚ) (e p : Nat → ℚ) :
    ∀ (fuel fuel' k : Nat) (val : ℚ) (r : ℚ × Nat),
      dvmLoop tmo? e p fuel k val = some r → fuel ≤ fuel' →
      dvmLoop tmo? e p fuel' k val = some r := by
  intro fuel
  induction fuel with
  | zero => intro fuel' k val r h _; simp [dvmLoop] at h
  | succ f ih =>
    intro fuel' k val r h hle
    obtain ⟨f', rfl⟩ : ∃ f', fuel' = f' + 1 := ⟨fuel' - 1, by omega⟩
    have hff : f ≤ f' := by omega
    by_cases hv : val < OverRange
    · simp only [dvmLoop, if_pos hv] at h ⊢
      exact h
    · cases tmo? with
      | none =>
        simp only [dvmLoop, if_neg hv] at h ⊢
        exact ih f' (k + 1) (p k) r h hff
      | some tmo =>
        by_cases ht : tmo ≤ e k
        · simp only [dvmLoop, if_neg hv, if_pos ht] at h ⊢
          exact h
        · simp only [dvmLoop, if_neg hv, if_neg ht] at h ⊢
          exact ih f' (k + 1) (p k) r h hff

/-- A value returned by the DVM polling loop is the initial value or
one of the polled readings. -/
theorem dvmLoop_val_src (tmo? : Option ℚ) (e p : Nat → ℚ) :
    ∀ (fuel k : Nat) (val v : ℚ) (j : Nat),
      dvmLoop tmo? e p fuel k val = some (v, j) →
      v = val ∨ ∃ m, v = p m := by
  intro fuel
  induction fuel with
  | zero => intro k val v j h; simp [dvmLoop] at h
  | succ f ih =>
    intro k val v j h
    by_cases hv : val < OverRange
    · simp only [dvmLoop, if_pos hv, Option.some.injEq, Prod.mk.injEq] at h
      exact Or.inl h.1.symm
    · cases tmo? with
      | none =>
        simp only [dvmLoop, if_neg hv] at h
        rcases ih (k + 1) (p k) v j h with h1 | h1
        · exact Or.inr ⟨k, h1⟩
        · exact Or.inr h1
      | some tmo =>
        by_cases ht : tmo ≤ e k
        · simp only [dvmLoop, if_neg hv, if_pos ht, Option.some.injEq,
            Prod.mk.injEq] at h
          exact Or.inl h.1.symm
        · simp only [dvmLoop, if_neg hv, if_neg ht] at h
          rcases ih (k + 1) (p k) v j h with h1 | h1
          · exact Or.inr ⟨k, h1⟩
          · exact Or.inr h1

/-- If every polled reading is over range and the elapsed clock reaches
the timeout at iteration `k + n`, the loop returns within `n` more
iterations, with an over-range value. -/
theorem dvmLoop_stops (T : ℚ) (e p : Nat → ℚ)
    (hp : ∀ m, OverRange ≤ p m) :
    ∀ (n k : Nat) (val : ℚ), OverRange ≤ val → T ≤ e (k + n) →
      ∃ v j, j ≤ k + n ∧
        dvmLoop (some T) e p (n + 1) k val = some (v, j) ∧
        OverRange ≤ v := by
  intro n
  induction n with
  | zero =>
    intro k val hval hT
    have hv : ¬ val < OverRange := not_lt.mpr hval
    refine ⟨val, k, le_refl _, ?_, hval⟩
    simp only [Nat.add_zero] at hT
    simp only [dvmLoop, if_neg hv, if_pos hT]
  | succ m ih =>
    intro k val hval hT
    have hv : ¬ val < OverRange := not_lt.mpr hval
    by_cases ht : T ≤ e k
    · exact ⟨val, k, by omega,
        by simp only [dvmLoop, if_neg hv, if_pos ht], hval⟩
    · have hT1 : T ≤ e ((k + 1) + m) := by
        rw [show (k + 1) + m = k + (m + 1) from by omega]
        exact hT
      obtain ⟨v, j, hj, hdl, hvv⟩ := ih (k + 1) (p k) (hp k) hT1
      exact ⟨v, j, by omega,
        by simp only [dvmLoop, if_neg hv, if_neg ht]; exact hdl, hvv⟩

/-- C6: a DVM-style read with a non-`None` timeout `T`, against an
instrument that never returns a value below the over-range sentinel,
stops polling at the first iteration at which `T` seconds have elapsed
(within `K` polls when the clock reaches `T` by iteration `K`) and
returns an over-range value to the caller — exactly the sentinel when
the instrument always answers with the sentinel — rather than raising
or blocking indefinitely. -/
theorem readDVM_timeout_overrange
    (st ch : PyVal) (mode : String) (instr : Instr) (T : ℚ)
    (K fuel : Nat) (nd : Int)
    (hch : pyMem ch chanAnaValidList = true)
    (hsrc : chanNumber (pyRstrip (instr.resp ":DVM:SOURce?") "\n")
      = .ok nd)
    (hpoll : ∀ m, OverRange ≤ instr.dvmVals m)
    (hfr : OverRange ≤ instr.numResp ":DVM:FREQ?")
    (hK : T ≤ instr.elapsed K)
    (hfuel : K < fuel) :
    ∃ v j, j ≤ K ∧
      dvmLoop (some T) instr.elapsed instr.dvmVals fuel 0 OverRange
        = some (v, j) ∧
      OverRange ≤ v ∧
      ∃ w, (readDVM st mode (some ch) (some T) instr fuel).out = .ok w ∧
        OverRange ≤ w ∧
        ((∀ m, instr.dvmVals m = OverRange) → mode ≠ "FREQ" →
          w = OverRange) := by
  obtain ⟨v, j, hj, hdl1, hv⟩ := dvmLoop_stops T instr.elapsed
    instr.dvmVals hpoll K 0 OverRange (le_refl _) (by simpa using hK)
  have hdl : dvmLoop (some T) instr.elapsed instr.dvmVals fuel 0 OverRange
      = some (v, j) :=
    dvmLoop_mono (some T) instr.elapsed instr.dvmVals (K + 1) fuel 0
      OverRange (v, j) hdl1 (by omega)
  have hshape := ana_mem_shape ch hch
  have hlist : ch.isList = false := by
    rcases hshape with h | h | h | h <;> subst h <;> rfl
  refine ⟨v, j, by simpa using hj, hdl, hv, ?_⟩
  by_cases hfreq : mode = "FREQ"
  · refine ⟨instr.numResp ":DVM:FREQ?", ?_, hfr,
      fun _ hne => absurd hfreq hne⟩
    simp [readDVM, setChanScalar, argIsList, hlist, hch, hsrc, hdl, hfreq]
  · refine ⟨v, ?_, hv, fun hall _ => ?_⟩
    · simp [readDVM, setChanScalar, argIsList, hlist, hch, hsrc, hdl, hfreq]
    · rcases dvmLoop_val_src (some T) instr.elapsed instr.dvmVals fuel 0
        OverRange v j hdl with h | ⟨m, h⟩
      · exact h
      · rw [h]; exact hall m

/-- Witness for `readDVM_timeout_overrange`: timeout 2 seconds, a
one-second-per-poll clock, and an instrument pinned at the sentinel. -/
theorem readDVM_timeout_overrange_witness :
    ∃ v j, j ≤ 2 ∧
      dvmLoop (some 2) flatInstr.elapsed flatInstr.dvmVals 5 0 OverRange
        = some (v, j) ∧
      OverRange ≤ v ∧
      ∃ w, (readDVM (.str "1") "DC" (some (.str "1")) (some 2) flatInstr
          5).out = .ok w ∧
        OverRange ≤ w ∧
        ((∀ m, flatInstr.dvmVals m = OverRange) → "DC" ≠ "FREQ" →
          w = OverRange) :=
  readDVM_timeout_overrange (.str "1") (.str "1") "DC" flatInstr 2 2 5 1
    (by simp [pyMem, chanAnaValidList_eq, pyEq])
    rfl (fun m => le_refl _) (le_refl _) (by norm_num [flatInstr])
    (by omega)

/-- The drain loop never issues more queries than its fuel. -/
theorem drainLoop_le (marker : String) (resps : Nat → String) :
    ∀ (fuel k : Nat) (errs : Bool),
      (drainLoop marker resps fuel k errs).2 ≤ fuel := by
  intro fuel
  induction fuel with
  | zero => intro k errs; simp [drainLoop]
  | succ f ih =>
    intro k errs
    simp only [drainLoop]
    by_cases he : pyStrip (resps k) = ""
    · simp only [if_pos he]
      exact Nat.succ_le_succ (Nat.zero_le f)
    · simp only [if_neg he]
      cases hp : marker.data.isPrefixOf (pyStrip (resps k)).data
      · simp only [hp, Bool.false_eq_true, if_false]
        exact Nat.succ_le_succ (ih (k + 1) true)
      · simp only [hp, if_true]
        exact Nat.succ_le_succ (Nat.zero_le f)

/-- When no response in the fuel window stops the loop, the loop
consumes all its fuel and reports an error (once at least one response
was read). -/
theorem drainLoop_no_stop (marker : String) (resps : Nat → String) :
    ∀ (fuel k : Nat) (errs : Bool),
      (∀ j, j < fuel → stopResp marker (resps (k + j)) = false) →
      drainLoop marker resps fuel k errs =
        ((if fuel = 0 then errs else true), fuel) := by
  intro fuel
  induction fuel with
  | zero => intro k errs _; simp [drainLoop]
  | succ f ih =>
    intro k errs h
    have h0 : stopResp marker (resps k) = false := by
      have := h 0 (by omega)
      simpa using this
    have he : ¬ pyStrip (resps k) = "" := by
      intro hh
      simp [stopResp, hh] at h0
    have hp : marker.data.isPrefixOf (pyStrip (resps k)).data = false := by
      simp only [stopResp, Bool.or_eq_false_iff] at h0
      exact h0.2
    have hrec := ih (k + 1) true (fun j hj => by
      have := h (j + 1) (by omega)
      rw [show k + (j + 1) = (k + 1) + j from by omega] at this
      exact this)
    simp only [drainLoop, if_neg he, hp, Bool.false_eq_true, if_false, hrec]
    simp

/-- When response `k + i` is the first stopping response, the loop
issues exactly `i + 1` queries, reports `true` on an empty response,
and otherwise reports whether any earlier (hence erroneous) response
was read. -/
theorem drainLoop_stop (marker : String) (resps : Nat → String) :
    ∀ (i fuel k : Nat) (errs : Bool), i < fuel →
      stopResp marker (resps (k + i)) = true →
      (∀ j, j < i → stopResp marker (resps (k + j)) = false) →
      drainLoop marker resps fuel k errs =
        ((if pyStrip (resps (k + i)) = "" then true
          else (if i = 0 then errs else true)), i + 1) := by
  intro i
  induction i with
  | zero =>
    intro fuel k errs hlt hstop _
    obtain ⟨f, rfl⟩ : ∃ f, fuel = f + 1 := ⟨fuel - 1, by omega⟩
    simp only [Nat.add_zero] at hstop ⊢
    by_cases he : pyStrip (resps k) = ""
    · simp [drainLoop, he]
    · have hp : marker.data.isPrefixOf (pyStrip (resps k)).data = true := by
        simp only [stopResp, Bool.or_eq_true_iff] at hstop
        rcases hstop with h1 | h1
        · exact absurd (by simpa using h1) he
        · exact h1
      simp [drainLoop, he, hp]
  | succ m ih =>
    intro fuel k errs hlt hstop hmin
    obtain ⟨f, rfl⟩ : ∃ f, fuel = f + 1 := ⟨fuel - 1, by omega⟩
    have h0 : stopResp marker (resps k) = false := by
      have := hmin 0 (by omega)
      simpa using this
    have he : ¬ pyStrip (resps k) = "" := by
      intro hh
      simp [stopResp, hh] at h0
    have hp : marker.data.isPrefixOf (pyStrip (resps k)).data = false := by
      simp only [stopResp, Bool.or_eq_false_iff] at h0
      exact h0.2
    have hrec := ih f (k + 1) true (by omega)
      (by rw [show (k + 1) + m = k + (m + 1) from by omega]; exact hstop)
      (fun j hj => by
        have := hmin (j + 1) (by omega)
        rw [show k + (j + 1) = (k + 1) + j from by omega] at this
        exact this)
    simp only [drainLoop, if_neg he, hp, Bool.false_eq_true, if_false, hrec]
    rw [show (k + 1) + m = k + (m + 1) from by omega]
    by_cases hee : pyStrip (resps (k + (m + 1))) = "" <;> simp [hee]

/-- C2: `checkInstErrors` issues at most 30 error-queue queries; it
stops at the first trimmed response that is empty or starts with the
no-error marker, issuing exactly `i + 1` queries when that first
response is at index `i`; with no such response it issues all 30; and
it returns `true` exactly when some empty or non-no-error response was
observed among the queries issued (it raises nothing: it is a total
function into a boolean). -/
theorem checkInstErrors_spec (v : ℚ) (resps : Nat → String) :
    (checkInstErrors v resps).queries ≤ ErrorQueue ∧
    (∀ i, i < ErrorQueue →
      stopResp (errSel v).2 (resps i) = true →
      (∀ j, j < i → stopResp (errSel v).2 (resps j) = false) →
      (checkInstErrors v resps).queries = i + 1 ∧
        ((checkInstErrors v resps).errors = true ↔
          (pyStrip (resps i) = "" ∨ 0 < i))) ∧
    ((∀ j, j < ErrorQueue → stopResp (errSel v).2 (resps j) = false) →
      (checkInstErrors v resps).queries = ErrorQueue ∧
        (checkInstErrors v resps).errors = true) ∧
    ((checkInstErrors v resps).errors = true ↔
      ∃ j, j < (checkInstErrors v resps).queries ∧
        (pyStrip (resps j) = "" ∨
          (errSel v).2.data.isPrefixOf (pyStrip (resps j)).data
            = false)) := by
  have hq : (checkInstErrors v resps).queries =
      (drainLoop (errSel v).2 resps ErrorQueue 0 false).2 := rfl
  have herr : (checkInstErrors v resps).errors =
      (drainLoop (errSel v).2 resps ErrorQueue 0 false).1 := rfl
  refine ⟨?_, ?_, ?_, ?_⟩
  · rw [hq]
    exact drainLoop_le (errSel v).2 resps ErrorQueue 0 false
  · intro i hi hstop hmin
    have hd := drainLoop_stop (errSel v).2 resps i ErrorQueue 0 false hi
      (by simpa using hstop) (fun j hj => by simpa using hmin j hj)
    simp only [Nat.zero_add] at hd
    refine ⟨by rw [hq, hd], ?_⟩
    rw [herr, hd]
    by_cases he : pyStrip (resps i) = ""
    · simp [he]
    · by_cases hz : i = 0
      · simp [he, hz]
      · simp [he, hz, Nat.pos_of_ne_zero hz]
  · intro hns
    have hd := drainLoop_no_stop (errSel v).2 resps ErrorQueue 0 false
      (fun j hj => by simpa using hns j hj)
    refine ⟨by rw [hq, hd], ?_⟩
    rw [herr, hd]
    simp [ErrorQueue]
  · by_cases hex : ∃ i, i < ErrorQueue ∧ stopResp (errSel v).2 (resps i)
        = true
    · have hi0 := Nat.find_spec hex
      set i0 := Nat.find hex with hi0def
      have hmin : ∀ j, j < i0 → stopResp (errSel v).2 (resps j) = false := by
        intro j hj
        have hnot := Nat.find_min hex hj
        have hj30 : j < ErrorQueue := lt_trans hj hi0.1
        by_contra hb
        rw [Bool.not_eq_false] at hb
        exact hnot ⟨hj30, hb⟩
      have hd := drainLoop_stop (errSel v).2 resps i0 ErrorQueue 0 false
        hi0.1 (by simpa using hi0.2) (fun j hj => by simpa using hmin j hj)
      simp only [Nat.zero_add] at hd
      rw [herr, hq, hd]
      by_cases he : pyStrip (resps i0) = ""
      · simp only [if_pos he]
        constructor
        · intro _
          exact ⟨i0, by omega, Or.inl he⟩
        · intro _
          trivial
      · by_cases hz : i0 = 0
        · have hpre : (errSel v).2.data.isPrefixOf
              (pyStrip (resps i0)).data = true := by
            have := hi0.2
            simp only [stopResp, Bool.or_eq_true_iff] at this
            rcases this with h1 | h1
            · exact absurd (by simpa using h1) he
            · exact h1
          simp only [if_neg he, if_pos hz]
          constructor
          · intro hfalse
            cases hfalse
          · rintro ⟨j, hj, hbad⟩
            have hj0 : j = 0 := by omega
            subst hj0
            rw [← hz] at hbad
            rcases hbad with h1 | h1
            · exact absurd h1 he
            · simp [hpre] at h1
        · have h0 : stopResp (errSel v).2 (resps 0) = false :=
            hmin 0 (Nat.pos_of_ne_zero hz)
          have h0split : ¬ pyStrip (resps 0) = "" ∧
              (errSel v).2.data.isPrefixOf (pyStrip (resps 0)).data
                = false := by
            simp only [stopResp, Bool.or_eq_false_iff] at h0
            exact ⟨by simpa using h0.1, h0.2⟩
          simp only [if_neg he, if_neg hz]
          constructor
          · intro _
            exact ⟨0, by omega, Or.inr h0split.2⟩
          · intro _
            trivial
    · push_neg at hex
      have hns : ∀ j, j < ErrorQueue →
          stopResp (errSel v).2 (resps j) = false := by
        intro j hj
        by_contra hb
        rw [Bool.not_eq_false] at hb
        exact absurd hb (hex j hj)
      have hd := drainLoop_no_stop (errSel v).2 resps ErrorQueue 0 false
        (fun j hj => by simpa using hns j hj)
      rw [herr, hq, hd]
      have h0 : stopResp (errSel v).2 (resps 0) = false :=
        hns 0 (by norm_num [ErrorQueue])
      have h0split : (errSel v).2.data.isPrefixOf
          (pyStrip (resps 0)).data = false := by
        simp only [stopResp, Bool.or_eq_false_iff] at h0
        exact h0.2
      simp only [ErrorQueue]
      constructor
      · intro _
        exact ⟨0, by omega, Or.inr h0split⟩
      · intro _
        trivial

/-- Witness for `checkInstErrors_spec`: one queued error followed by
the old-dialect no-error response stops after two queries with the
error flag set. -/
theorem checkInstErrors_spec_witness :
    (checkInstErrors 2 sampleResps).queries = 1 + 1 ∧
    ((checkInstErrors 2 sampleResps).errors = true ↔
      (pyStrip (sampleResps 1) = "" ∨ 0 < 1)) := by
  have hsel : (errSel 2).2 = "+0," := by
    have h : ¬ (31 / 10 : ℚ) < 2 := by norm_num
    simp [errSel, h]
  exact (checkInstErrors_spec 2 sampleResps).2.1 1
    (by norm_num [ErrorQueue])
    (by rw [hsel]; decide)
    (by
      intro j hj
      have hj0 : j = 0 := by omega
      subst hj0
      rw [hsel]
      decide)

end Msox3000
